import Mathlib

/-!
Shallow embedding of src/routes/gemini.js from wewwewdead/foodie-server.

The file models the three route handlers of the Express router:
`POST /analyze` (the part after the model reply arrives: JSON parsing,
fallback detection, response shaping), `POST /save` (body validation and
the insert row handed to the store) and `GET /getFoodLogs` (userId check,
store query outcome and the daily-totals fold). External collaborators
(the generative model, the upload transport, the supabase client) are
modelled as parameters: parsing outcome as `Option Analysis`, store calls
as `Except`-valued inputs. JavaScript numbers in nutrition fields are
modelled as `Int` (the data is integer-valued estimates; addition and
comparison coincide with JS semantics on this range), and a field that
may be absent or null is an `Option`.
-/

namespace Foodie

/-- Parsed model output: the field set of the response schema declared in
the analyze handler. Every field is optional here because `JSON.parse`
itself imposes no required fields; absence or JSON null is `none`. -/
structure Analysis where
  fallback : Option String
  coachAdvice : Option String
  food : Option String
  benefits : Option (List String)
  calories : Option Int
  carbs : Option Int
  sugar : Option Int
  drawbacks : Option (List String)
  nutrients : Option (List String)
  deriving DecidableEq, Repr

/-- Whether the first character list is a leading segment of the second. -/
def startsWithChars : List Char → List Char → Bool
  | [], _ => true
  | _ :: _, [] => false
  | c :: cs, d :: ds => c == d && startsWithChars cs ds

/-- Whether the needle occurs contiguously somewhere in the haystack. -/
def hasInfixChars (needle : List Char) : List Char → Bool
  | [] => startsWithChars needle []
  | d :: ds => startsWithChars needle (d :: ds) || hasInfixChars needle ds

/-- Models JavaScript `s.toLowerCase()` on the character sequence of a
string (codepointwise lowering; the sentinel search only involves ASCII,
where the two coincide). -/
def lowerChars (s : List Char) : List Char :=
  s.map Char.toLower

/-- Models the JavaScript substring test `hay.toLowerCase().includes(needle)`. -/
def strIncludesLower (hay needle : String) : Bool :=
  hasInfixChars needle.toList (lowerChars hay.toList)

/-- The no-food sentinel substring the analyze handler searches for. -/
def noFoodSentinel : String := "no food detected"

/-- Models `analysis.fallback && analysis.fallback.toLowerCase().includes("no food detected")`:
the fallback string is truthy (present and non-empty) and its lowercase
form contains the sentinel. -/
def fallbackTriggered (a : Analysis) : Bool :=
  match a.fallback with
  | none => false
  | some fb => fb != "" && strIncludesLower fb noFoodSentinel

/-- The responses the analyze handler can produce once a model reply is in
hand: a status/error pair, the fallback-only body
`{analysis: {fallback}}`, or the full body `{analysis, coach}`. -/
inductive AnalyzeResponse where
  | errorResp (status : Nat) (error : String)
  | fallbackOnly (fallbackMsg : String)
  | full (analysis : Analysis) (coach : String)
  deriving DecidableEq, Repr

/-- The analyze handler from the point where the model reply text is
parsed: `parsed` is the outcome of `JSON.parse` (`none` on a syntax
error), `celebName` the persona drawn earlier in the handler. Mirrors the
try/catch around `JSON.parse`, the fallback branch, and the final
`res.json({analysis, coach})`. -/
def analyzeRespond (parsed : Option Analysis) (celebName : String) : AnalyzeResponse :=
  match parsed with
  | none => .errorResp 500 "Invalid response format from AI"
  | some analysis =>
    if fallbackTriggered analysis then
      .fallbackOnly (analysis.fallback.getD "")
    else
      .full analysis celebName

/-- The JSON body of `POST /save` after destructuring
`{cal, sugar, carbs, userId, foodName}`; absent keys are `none`. -/
structure SaveBody where
  cal : Option Int
  sugar : Option Int
  carbs : Option Int
  userId : Option String
  foodName : Option String
  deriving DecidableEq, Repr

/-- JavaScript truthiness of a numeric body field: absent, null and 0 are
falsy; any other number is truthy. -/
def numTruthy : Option Int → Bool
  | none => false
  | some n => n != 0

/-- A row of the `food_logs` table as the save handler builds it for the
insert call (and as the query in getFoodLogs returns it). -/
structure FoodLogEntry where
  calories : Option Int
  carbs : Option Int
  sugar : Option Int
  user_id : Option String
  food_name : Option String
  deriving DecidableEq, Repr

/-- The object literal the save handler passes to the insert call on the
food_logs table. -/
def insertRowOfBody (b : SaveBody) : FoodLogEntry :=
  { calories := b.cal
    carbs := b.carbs
    sugar := b.sugar
    user_id := b.userId
    food_name := b.foodName }

/-- Responses of the save handler. -/
inductive SaveResponse where
  | badRequest (error : String)
  | ok (message : String) (data : List FoodLogEntry)
  | serverError (error : String)
  deriving DecidableEq, Repr

/-- The save handler: validates `cal`, `sugar`, `carbs` for truthiness
(`if(!cal || !sugar || !carbs)` gives 400), otherwise hands the built row
to the store. The second component records the row passed to the insert
call, `none` when no insert was attempted. The store is a parameter
mapping the row to the data-or-error outcome of the supabase call. -/
def saveRespond (b : SaveBody) (store : FoodLogEntry → Except String (List FoodLogEntry)) :
    SaveResponse × Option FoodLogEntry :=
  if numTruthy b.cal && numTruthy b.sugar && numTruthy b.carbs then
    let row := insertRowOfBody b
    match store row with
    | .error e => (.serverError e, some row)
    | .ok data => (.ok "saved successfully!" data, some row)
  else
    (.badRequest "sugar, carbs, cal is required", none)

/-- Daily aggregate derived in the getFoodLogs handler. -/
structure DailyTotals where
  totalCalories : Int
  totalCarbs : Int
  totalSugar : Int
  deriving DecidableEq, Repr

/-- Models the JavaScript coercion `x || 0` on a numeric field: absent or
null becomes 0 (a numeric 0 also stays 0). -/
def orZero : Option Int → Int
  | none => 0
  | some n => n

/-- One step of the reduce callback in getFoodLogs. -/
def totalsStep (acc : DailyTotals) (item : FoodLogEntry) : DailyTotals :=
  { totalCalories := acc.totalCalories + orZero item.calories
    totalCarbs := acc.totalCarbs + orZero item.carbs
    totalSugar := acc.totalSugar + orZero item.sugar }

/-- `data.reduce((acc, item) => ..., {totalCalories: 0, totalCarbs: 0, totalSugar: 0})`. -/
def totalsReduce (entries : List FoodLogEntry) : DailyTotals :=
  entries.foldl totalsStep { totalCalories := 0, totalCarbs := 0, totalSugar := 0 }

/-- Responses of the getFoodLogs handler when it responds at all. -/
inductive LogsResponse where
  | badRequest (error : String)
  | ok (data : List FoodLogEntry) (totals : DailyTotals)
  deriving DecidableEq, Repr

/-- The getFoodLogs handler: `userId` is the query parameter (`none` when
absent; the empty string is also falsy in `if(!userId)`), `queryResult`
the outcome of the day-bounded store query. The result is `none` exactly
when the handler sends no HTTP response: on a store error the code logs
and executes a bare `return;`. -/
def getFoodLogsRespond (userId : Option String)
    (queryResult : Except String (List FoodLogEntry)) : Option LogsResponse :=
  match userId with
  | none => some (.badRequest "no userId received!")
  | some u =>
    if u == "" then
      some (.badRequest "no userId received!")
    else
      match queryResult with
      | .error _ => none
      | .ok data => some (.ok data (totalsReduce data))

/-- The fixed persona pool declared at the top of the analyze handler. -/
def deadCelebs : List String :=
  ["Albert Einstein", "Cleopatra", "Julius Caesar", "Shakespeare",
   "Frida Kahlo", "Bruce Lee", "Leonardo da Vinci", "Napoleon Bonaparte",
   "Amelia Earhart", "Marie Curie"]

/-- `deadCelebs[Math.floor(Math.random() * deadCelebs.length)]` with the
random draw `r` made explicit; the random source yields values in
[0, 1). Out-of-range indexing would yield JS undefined, modelled by the
default "". -/
def getRandomCeleb (r : ℚ) : String :=
  deadCelebs.getD (Int.toNat ⌊r * (deadCelebs.length : ℚ)⌋) ""

/-- An analysis with every field absent: what `JSON.parse` yields on the
text "{}". -/
def emptyAnalysis : Analysis :=
  { fallback := none, coachAdvice := none, food := none, benefits := none,
    calories := none, carbs := none, sugar := none, drawbacks := none,
    nutrients := none }

/-- A store that accepts every insert and echoes the row, for concrete
instantiations. -/
def okStore : FoodLogEntry → Except String (List FoodLogEntry) :=
  fun row => .ok [row]

end Foodie

namespace Foodie

/-- Helper: the analyze handler produces the fallback-only body for every
parsed analysis whose fallback field is the triggering string. -/
theorem analyzeRespond_of_fallback (a : Analysis) (celeb fb : String)
    (h : a.fallback = some fb) (hne : fb ≠ "")
    (hsent : strIncludesLower fb noFoodSentinel = true) :
    analyzeRespond (some a) celeb = AnalyzeResponse.fallbackOnly fb := by
  have htrig : fallbackTriggered a = true := by
    unfold fallbackTriggered
    rw [h]
    simp [hsent, hne]
  simp [analyzeRespond, htrig, h]

/-- C1: when the parsed fallback field is non-empty and its lowercase
form contains the no-food sentinel, the analyze flow returns the
fallback-only result carrying exactly the fallback message; the response
is determined by the fallback field alone, so no nutrition field of the
raw output (calories, carbs, sugar, food, benefits, drawbacks, nutrients,
coachAdvice) can surface, whatever values they hold. -/
theorem analyze_fallback_precedence (a : Analysis) (celeb fb : String)
    (hfb : a.fallback = some fb) (hne : fb ≠ "")
    (hsent : strIncludesLower fb noFoodSentinel = true) :
    analyzeRespond (some a) celeb = AnalyzeResponse.fallbackOnly fb ∧
      ∀ a' : Analysis, a'.fallback = a.fallback →
        analyzeRespond (some a') celeb = AnalyzeResponse.fallbackOnly fb := by
  refine ⟨analyzeRespond_of_fallback a celeb fb hfb hne hsent, ?_⟩
  intro a' h
  exact analyzeRespond_of_fallback a' celeb fb (h.trans hfb) hne hsent

/-- Witness for C1: a raw output that carries stray nutrition data next to
the sentinel fallback still yields only the fallback message. -/
theorem analyze_fallback_precedence_witness :
    analyzeRespond
      (some { emptyAnalysis with
                fallback := some "No Food Detected", food := some "Pizza",
                calories := some 800, carbs := some 90, sugar := some 12 })
      "Cleopatra" = AnalyzeResponse.fallbackOnly "No Food Detected" :=
  (analyze_fallback_precedence _ "Cleopatra" "No Food Detected" rfl
    (by decide) (by decide)).1

/-- Counterexample to C2: the text "{}" parses as JSON to an analysis with
every required field missing and no fallback sentinel, yet the handler
returns the 200 full body rather than the 500 InvalidFormat error. -/
theorem analyze_missing_fields_cx :
    analyzeRespond (some emptyAnalysis) "Albert Einstein" =
        AnalyzeResponse.full emptyAnalysis "Albert Einstein" ∧
      analyzeRespond (some emptyAnalysis) "Albert Einstein" ≠
        AnalyzeResponse.errorResp 500 "Invalid response format from AI" := by
  exact ⟨rfl, by decide⟩

/-- C2 amended: the handler validates nothing beyond JSON syntax. Every
parsed analysis that does not trigger the fallback branch is passed
through unchanged as the 200 full body, missing required fields included;
no field is zero-filled and no InvalidFormat error is produced. -/
theorem analyze_no_validation_passthrough (a : Analysis) (celeb : String)
    (h : fallbackTriggered a = false) :
    analyzeRespond (some a) celeb = AnalyzeResponse.full a celeb := by
  simp [analyzeRespond, h]

/-- Witness for the amended C2: the all-missing analysis is passed through. -/
theorem analyze_no_validation_passthrough_witness :
    analyzeRespond (some emptyAnalysis) "Shakespeare" =
      AnalyzeResponse.full emptyAnalysis "Shakespeare" :=
  analyze_no_validation_passthrough emptyAnalysis "Shakespeare" (by decide)

/-- C3: a model reply whose text fails to parse as JSON makes the analyze
endpoint answer 500 with the InvalidFormat body, and no analysis result
is part of the response. -/
theorem analyze_parse_failure_500 (celeb : String) :
    analyzeRespond none celeb =
      AnalyzeResponse.errorResp 500 "Invalid response format from AI" := rfl

/-- C4: with a (truthy) userId present, a failing day-bounded store query
makes the getFoodLogs handler send no HTTP response at all: the code logs
the error and returns bare, producing neither a 500 nor any other
status. -/
theorem getFoodLogs_store_error_silent (u e : String) (h : u ≠ "") :
    getFoodLogsRespond (some u) (Except.error e) = none := by
  simp [getFoodLogsRespond, h]

/-- Witness for C4 at a concrete user and store error. -/
theorem getFoodLogs_store_error_silent_witness :
    getFoodLogsRespond (some "u1") (Except.error "connection reset") = none :=
  getFoodLogs_store_error_silent "u1" "connection reset" (by decide)

/-- A save body with truthy cal, sugar and carbs but no userId. -/
def noUserBody : SaveBody :=
  { cal := some 250, sugar := some 10, carbs := some 30,
    userId := none, foodName := some "Apple" }

/-- Counterexample to C5: the save handler checks only cal, sugar and
carbs; with those truthy and userId absent it still hands the row to the
store insert, with a null user_id, and answers 200 on success. -/
theorem save_missing_userid_cx :
    (saveRespond noUserBody okStore).2 =
        some { calories := some 250, carbs := some 30, sugar := some 10,
               user_id := none, food_name := some "Apple" } ∧
      (saveRespond noUserBody okStore).1 =
        SaveResponse.ok "saved successfully!"
          [{ calories := some 250, carbs := some 30, sugar := some 10,
             user_id := none, food_name := some "Apple" }] := by
  decide

/-- C5 amended: the save endpoint enforces no precondition on user_id.
Whenever cal, sugar and carbs are truthy, an insert is attempted with the
row built from the body, whatever the userId field holds (absent
included). -/
theorem save_insert_ignores_userid (b : SaveBody)
    (store : FoodLogEntry → Except String (List FoodLogEntry))
    (hc : numTruthy b.cal = true) (hs : numTruthy b.sugar = true)
    (hb : numTruthy b.carbs = true) :
    (saveRespond b store).2 = some (insertRowOfBody b) := by
  unfold saveRespond
  rw [hc, hs, hb]
  rcases hst : store (insertRowOfBody b) with e | d <;> simp [hst]

/-- Witness for the amended C5: the insert is attempted with userId
absent. -/
theorem save_insert_ignores_userid_witness :
    (saveRespond noUserBody okStore).2 = some (insertRowOfBody noUserBody) :=
  save_insert_ignores_userid noUserBody okStore (by decide) (by decide) (by decide)

/-- C6: a body with any of cal, sugar, carbs missing or falsy (the number
0 included) gets the 400 response with the fixed error message, and no
store insert is attempted. -/
theorem save_falsy_field_400 (b : SaveBody)
    (store : FoodLogEntry → Except String (List FoodLogEntry))
    (h : numTruthy b.cal = false ∨ numTruthy b.sugar = false ∨
      numTruthy b.carbs = false) :
    saveRespond b store =
      (SaveResponse.badRequest "sugar, carbs, cal is required", none) := by
  unfold saveRespond
  rcases h with h | h | h <;> rw [h] <;> simp

/-- Witness for C6: sugar equal to 0 is falsy and rejected with no
insert. -/
theorem save_falsy_field_400_witness :
    saveRespond
      { cal := some 250, sugar := some 0, carbs := some 30,
        userId := some "u1", foodName := some "Apple" } okStore =
      (SaveResponse.badRequest "sugar, carbs, cal is required", none) :=
  save_falsy_field_400 _ okStore (by decide)

/-- C7: with truthy cal, sugar and carbs and a successful insert, the
handler answers 200 with the success message and the store data, and the
row handed to the insert carries exactly the input fields: calories from
cal, carbs from carbs, sugar from sugar, user_id from userId, food_name
from foodName. -/
theorem save_success_roundtrip (b : SaveBody)
    (store : FoodLogEntry → Except String (List FoodLogEntry))
    (data : List FoodLogEntry)
    (hc : numTruthy b.cal = true) (hs : numTruthy b.sugar = true)
    (hb : numTruthy b.carbs = true)
    (hstore : store (insertRowOfBody b) = Except.ok data) :
    saveRespond b store =
        (SaveResponse.ok "saved successfully!" data, some (insertRowOfBody b)) ∧
      (insertRowOfBody b).calories = b.cal ∧ (insertRowOfBody b).carbs = b.carbs ∧
      (insertRowOfBody b).sugar = b.sugar ∧ (insertRowOfBody b).user_id = b.userId ∧
      (insertRowOfBody b).food_name = b.foodName := by
  refine ⟨?_, rfl, rfl, rfl, rfl, rfl⟩
  unfold saveRespond
  rw [hc, hs, hb]
  simp [hstore]

/-- Witness for C7: the Apple payload from the spec example round-trips. -/
theorem save_success_roundtrip_witness :
    saveRespond
        { cal := some 250, sugar := some 10, carbs := some 30,
          userId := some "u1", foodName := some "Apple" } okStore =
      (SaveResponse.ok "saved successfully!"
          [{ calories := some 250, carbs := some 30, sugar := some 10,
             user_id := some "u1", food_name := some "Apple" }],
        some { calories := some 250, carbs := some 30, sugar := some 10,
               user_id := some "u1", food_name := some "Apple" }) :=
  (save_success_roundtrip _ okStore _ (by decide) (by decide) (by decide) rfl).1

/-- Helper: the totals fold from an arbitrary accumulator is the
accumulator plus the componentwise sums. -/
theorem totalsFold_from_acc (l : List FoodLogEntry) (acc : DailyTotals) :
    l.foldl totalsStep acc =
      { totalCalories := acc.totalCalories + (l.map fun e => orZero e.calories).sum
        totalCarbs := acc.totalCarbs + (l.map fun e => orZero e.carbs).sum
        totalSugar := acc.totalSugar + (l.map fun e => orZero e.sugar).sum } := by
  induction l generalizing acc with
  | nil => simp
  | cons e t ih => simp [ih, totalsStep, add_assoc]

/-- C8: the reduce of getFoodLogs returns the componentwise sums of
calories, carbs and sugar, a missing or null field counting as 0 through
the `x || 0` coercion, and on the empty row list it returns the all-zero
totals. -/
theorem totalsReduce_sums (entries : List FoodLogEntry) :
    totalsReduce entries =
        { totalCalories := (entries.map fun e => orZero e.calories).sum
          totalCarbs := (entries.map fun e => orZero e.carbs).sum
          totalSugar := (entries.map fun e => orZero e.sugar).sum } ∧
      totalsReduce [] =
        { totalCalories := 0, totalCarbs := 0, totalSugar := 0 } := by
  refine ⟨?_, rfl⟩
  simp [totalsReduce, totalsFold_from_acc]

/-- C9: the totals fold is order-independent: any permutation of the row
list reduces to the same DailyTotals. -/
theorem totalsReduce_perm_invariant (l₁ l₂ : List FoodLogEntry)
    (h : l₁.Perm l₂) : totalsReduce l₁ = totalsReduce l₂ := by
  have hcal := (h.map fun e => orZero e.calories).sum_eq
  have hcarb := (h.map fun e => orZero e.carbs).sum_eq
  have hsug := (h.map fun e => orZero e.sugar).sum_eq
  rw [totalsReduce, totalsReduce, totalsFold_from_acc, totalsFold_from_acc,
    hcal, hcarb, hsug]

/-- Witness for C9 at three concrete rows and the shuffle from the spec
example. -/
theorem totalsReduce_perm_invariant_witness :
    List.Perm
        ([{ calories := some 100, carbs := some 10, sugar := some 5,
            user_id := some "u1", food_name := some "Rice" },
          { calories := some 200, carbs := some 20, sugar := some 0,
            user_id := some "u1", food_name := some "Fish" },
          { calories := none, carbs := none, sugar := some 3,
            user_id := some "u1", food_name := none }] : List FoodLogEntry)
        [{ calories := none, carbs := none, sugar := some 3,
           user_id := some "u1", food_name := none },
         { calories := some 100, carbs := some 10, sugar := some 5,
           user_id := some "u1", food_name := some "Rice" },
         { calories := some 200, carbs := some 20, sugar := some 0,
           user_id := some "u1", food_name := some "Fish" }] ∧
      totalsReduce
          [{ calories := some 100, carbs := some 10, sugar := some 5,
             user_id := some "u1", food_name := some "Rice" },
           { calories := some 200, carbs := some 20, sugar := some 0,
             user_id := some "u1", food_name := some "Fish" },
           { calories := none, carbs := none, sugar := some 3,
             user_id := some "u1", food_name := none }] =
        totalsReduce
          [{ calories := none, carbs := none, sugar := some 3,
             user_id := some "u1", food_name := none },
           { calories := some 100, carbs := some 10, sugar := some 5,
             user_id := some "u1", food_name := some "Rice" },
           { calories := some 200, carbs := some 20, sugar := some 0,
             user_id := some "u1", food_name := some "Fish" }] :=
  ⟨by decide, totalsReduce_perm_invariant _ _ (by decide)⟩

/-- C10: for every random draw r in [0, 1), the computed index
floor(r * 10) is a valid index into the ten-element persona pool, and the
selected persona is one of the ten fixed names; the selection is a pure
function of the draw alone. -/
theorem getRandomCeleb_in_pool (r : ℚ) (h0 : 0 ≤ r) (h1 : r < 1) :
    Int.toNat ⌊r * (deadCelebs.length : ℚ)⌋ < deadCelebs.length ∧
      getRandomCeleb r ∈ deadCelebs := by
  have hlen : deadCelebs.length = 10 := rfl
  have hnn : (0 : ℚ) ≤ r * (deadCelebs.length : ℚ) := by positivity
  have hub : r * (deadCelebs.length : ℚ) < 10 := by
    rw [hlen]
    push_cast
    nlinarith
  have hfl0 : 0 ≤ ⌊r * (deadCelebs.length : ℚ)⌋ := Int.floor_nonneg.mpr hnn
  have hflub : ⌊r * (deadCelebs.length : ℚ)⌋ < 10 := by
    rw [Int.floor_lt]
    push_cast
    exact hub
  have hidx : Int.toNat ⌊r * (deadCelebs.length : ℚ)⌋ < deadCelebs.length := by
    show Int.toNat ⌊r * (deadCelebs.length : ℚ)⌋ < 10
    omega
  refine ⟨hidx, ?_⟩
  rw [getRandomCeleb, List.getD_eq_getElem _ _ hidx]
  exact List.getElem_mem hidx

/-- Witness for C10 at the concrete draw one half. -/
theorem getRandomCeleb_in_pool_witness :
    (0 : ℚ) ≤ 1 / 2 ∧ (1 / 2 : ℚ) < 1 ∧ getRandomCeleb (1 / 2) ∈ deadCelebs :=
  ⟨by norm_num, by norm_num,
    (getRandomCeleb_in_pool (1 / 2) (by norm_num) (by norm_num)).2⟩

end Foodie
